import Mathlib

/-!
Verification of the CV-analyzer backend (fastcvai).

Shallow embedding of the pieces of the repository the claims are about:

* `openai_utils.analyze_cv` and `openai_utils.generate_cv_improvement_suggestions`
  (backend/app/openai_utils.py): the reply of the external language-model
  service is modelled, after code-fence stripping and `json.loads`, as an
  outcome value: an API-level exception (e.g. the missing-credential
  `ValueError` raised by `get_openai_client`), a `json.JSONDecodeError`, or a
  successfully parsed JSON object.  JSON objects are association lists of
  string keys and JSON values; Python dict assignment and lookup are modelled
  by `dinsert` / `dlookup`.
* `utils.extract_text_from_docx`, `utils.extract_text`,
  `utils.extract_text_from_image` (backend/app/utils.py): the fallible
  sub-extractors (mammoth, python-docx parsing, pdfplumber, file reads, OCR)
  are modelled as `Except`-valued fields of an environment; Python exceptions
  carry a kind (`ValueError` vs anything else) because the endpoint branches
  on it.
* `CVSessionCRUD` (backend/app/crud.py) over the `CVSession` model
  (backend/app/database.py): the store is a list of session rows; SQLAlchemy
  flush semantics (an UPDATE — and hence the `updated_at` onupdate default —
  fires only when some column's value actually changed) are modelled
  explicitly in the update operations.
* the `/api/analyze-cv` endpoint (backend/app/main.py): its two `except`
  branches and temp-file cleanup.
-/

namespace FastCVAI

/-! ## JSON values and dictionaries

Model of the JSON values this service's replies contain: numbers, strings,
arrays of strings (all the list-valued fields hold strings), and `null`
standing in for any other value.  A parsed JSON object is an association
list. -/

inductive JsonVal where
  | num (n : Int)
  | str (s : String)
  | arr (xs : List String)
  | null
deriving DecidableEq, Repr

/-- A parsed JSON object (Python dict with string keys). -/
abbrev JDict := List (String × JsonVal)

/-- Python `d[k]` lookup (as an `Option`): first binding of `k`.  (Keys of a
parsed JSON object are unique, so first-binding lookup is dict lookup.) -/
def dlookup : JDict → String → Option JsonVal
  | [], _ => none
  | p :: d, k => if p.1 == k then some p.2 else dlookup d k

/-- Python `k in d`. -/
def dcontains (d : JDict) (k : String) : Bool :=
  (dlookup d k).isSome

/-- Python `d[k] = v` assignment: replace the existing binding, else append. -/
def dinsert (d : JDict) (k : String) (v : JsonVal) : JDict :=
  if d.any (fun p => p.1 == k) then
    d.map (fun p => if p.1 == k then (k, v) else p)
  else
    d ++ [(k, v)]

/-! ## Analyzer (`openai_utils.analyze_cv`) -/

/-- Outcome of the external-service call in `analyze_cv`, seen at the point
after code-fence stripping and `json.loads`:

* `apiError err`: any exception raised before a reply was parsed — the
  missing-credential `ValueError` from `get_openai_client`, a network error
  from the client, … (`str(e)` is `err`);
* `invalidJson`: the reply text was obtained but `json.loads` raised
  `json.JSONDecodeError`;
* `parsed obj`: the reply parsed to the JSON object `obj`. -/
inductive ServiceOutcome where
  | apiError (err : String)
  | invalidJson
  | parsed (obj : JDict)
deriving DecidableEq, Repr

/-- The `required_keys` list of `analyze_cv`. -/
def requiredKeys : List String :=
  ["score", "missing_skills", "strengths", "experience_gaps", "recommendations", "summary"]

/-- The default filled in for an absent required key:
`result[key] = [] if key != "score" and key != "summary"
               else (50 if key == "score" else "Analysis incomplete")`. -/
def defaultForKey (key : String) : JsonVal :=
  if key ≠ "score" ∧ key ≠ "summary" then .arr []
  else if key = "score" then .num 50
  else .str "Analysis incomplete"

/-- One iteration of the back-fill loop of `analyze_cv`:
`if key not in result: result[key] = …`. -/
def backfillStep (r : JDict) (key : String) : JDict :=
  if dcontains r key then r else dinsert r key (defaultForKey key)

/-- The back-fill loop of `analyze_cv`:
`for key in required_keys: if key not in result: result[key] = …`. -/
def backfillRequired (result : JDict) : JDict :=
  requiredKeys.foldl backfillStep result

/-- The 6-tuple returned by `analyze_cv`, with fields in the source's return
order: `(score, missing_skills, summary, strengths, experience_gaps,
recommendations)`. -/
structure AnalysisTuple where
  score : JsonVal
  missing_skills : JsonVal
  summary : JsonVal
  strengths : JsonVal
  experience_gaps : JsonVal
  recommendations : JsonVal
deriving DecidableEq, Repr

/-- `openai_utils.analyze_cv`, as a total function of the service outcome.
Totality of this function is the no-exception-escapes property: every
outcome, the two failure kinds included, maps to an ordinary tuple.

* on a parsed reply: back-fill the required keys, then return
  `(result["score"], result["missing_skills"], result["summary"],
  result.get("strengths", []), result.get("experience_gaps", []),
  result.get("recommendations", []))` (after the back-fill the plain
  subscripts cannot raise `KeyError`; `.getD .null` mirrors that);
* on `json.JSONDecodeError`: the fixed placeholder tuple;
* on any other exception `e`: the degraded tuple embedding `str(e)` in the
  summary. -/
def analyze_cv : ServiceOutcome → AnalysisTuple
  | .parsed obj =>
    let result := backfillRequired obj
    { score := (dlookup result "score").getD .null
      missing_skills := (dlookup result "missing_skills").getD .null
      summary := (dlookup result "summary").getD .null
      strengths := (dlookup result "strengths").getD (.arr [])
      experience_gaps := (dlookup result "experience_gaps").getD (.arr [])
      recommendations := (dlookup result "recommendations").getD (.arr []) }
  | .invalidJson =>
    { score := .num 50
      missing_skills := .arr ["Analysis parsing failed"]
      summary := .str "Could not parse AI analysis response"
      strengths := .arr ["Please try again"]
      experience_gaps := .arr ["Technical issue occurred"]
      recommendations := .arr ["Contact support if problem persists"] }
  | .apiError err =>
    { score := .num 50
      missing_skills := .arr ["Unable to analyze - API error"]
      summary := .str ("Analysis failed: " ++ err)
      strengths := .arr []
      experience_gaps := .arr []
      recommendations := .arr ["Please check your OpenAI API key and try again"] }

/-! ## Enhancer (`openai_utils.generate_cv_improvement_suggestions`) -/

/-- Outcome of the external-service call in
`generate_cv_improvement_suggestions`.  The single generic `except Exception`
of the source catches API errors and `json.JSONDecodeError` alike, so both
are `failure err` here (with `err = str(e)`). -/
inductive SuggestOutcome where
  | failure (err : String)
  | parsed (obj : JDict)
deriving DecidableEq, Repr

/-- The six keys the suggestion prompt asks for. -/
def suggestRequiredKeys : List String :=
  ["enhanced_summary", "skill_additions", "experience_enhancements",
   "formatting_suggestions", "keyword_optimization", "achievement_focus"]

/-- The fixed default mapping returned by the `except` branch of
`generate_cv_improvement_suggestions`. -/
def defaultSuggestions (err : String) : JDict :=
  [("enhanced_summary", .str "Professional with diverse experience and growing skill set."),
   ("skill_additions", .arr ["Present new skills with context and examples"]),
   ("experience_enhancements", .arr ["Quantify achievements with numbers and metrics"]),
   ("formatting_suggestions", .arr ["Use consistent formatting and clear section headers"]),
   ("keyword_optimization", .arr ["Include industry-specific keywords from job descriptions"]),
   ("achievement_focus", .arr ["Highlight impact and results achieved"]),
   ("error", .str ("Enhancement failed: " ++ err))]

/-- `openai_utils.generate_cv_improvement_suggestions`: a successfully parsed
reply is returned as-is (`return json.loads(content)` — there is no back-fill
on this path); any exception yields the fixed default mapping plus the
`error` key. -/
def generate_cv_improvement_suggestions : SuggestOutcome → JDict
  | .parsed obj => obj
  | .failure err => defaultSuggestions err

/-! ## Dictionary lemmas -/

theorem dlookup_append (d1 d2 : JDict) (k : String) :
    dlookup (d1 ++ d2) k =
      match dlookup d1 k with
      | some v => some v
      | none => dlookup d2 k := by
  induction d1 with
  | nil => rfl
  | cons p d1 ih =>
    rw [List.cons_append]
    simp only [dlookup]
    cases hp : p.1 == k <;> simp [hp, ih]

theorem dlookup_none_of_not_any (d : JDict) (k : String)
    (h : d.any (fun p => p.1 == k) = false) : dlookup d k = none := by
  induction d with
  | nil => rfl
  | cons p d ih =>
    simp only [List.any_cons, Bool.or_eq_false_iff] at h
    simp [dlookup, h.1, ih h.2]

theorem dlookup_map_insert_self (d : JDict) (k : String) (v : JsonVal)
    (h : d.any (fun p => p.1 == k) = true) :
    dlookup (d.map (fun p => if p.1 == k then (k, v) else p)) k = some v := by
  induction d with
  | nil => simp at h
  | cons p d ih =>
    cases hp : p.1 == k with
    | true => simp [dlookup, hp]
    | false =>
      simp only [List.any_cons, hp, Bool.false_or] at h
      simp only [List.map_cons, dlookup]
      rw [if_neg (show ¬((p.1 == k) = true) by simp [hp])]
      rw [if_neg (show ¬((p.1 == k) = true) by simp [hp])]
      exact ih h

theorem dlookup_map_insert_ne (d : JDict) (k k' : String) (v : JsonVal)
    (h : (k == k') = false) :
    dlookup (d.map (fun p => if p.1 == k then (k, v) else p)) k' = dlookup d k' := by
  induction d with
  | nil => rfl
  | cons p d ih =>
    cases hp : p.1 == k with
    | true =>
      have hpk : p.1 = k := by simpa using hp
      simp only [List.map_cons, dlookup]
      rw [if_pos hp]
      rw [if_neg (show ¬(((k, v).1 == k') = true) by simp [h])]
      rw [if_neg (show ¬((p.1 == k') = true) by rw [hpk]; simp [h])]
      exact ih
    | false =>
      simp only [List.map_cons, dlookup]
      rw [if_neg (show ¬((p.1 == k) = true) by simp [hp]), ih]

theorem dlookup_dinsert_self (d : JDict) (k : String) (v : JsonVal) :
    dlookup (dinsert d k v) k = some v := by
  cases hany : d.any (fun p => p.1 == k) with
  | true =>
    have hd : dinsert d k v = d.map (fun p => if p.1 == k then (k, v) else p) := by
      unfold dinsert; rw [if_pos hany]
    rw [hd]
    exact dlookup_map_insert_self d k v hany
  | false =>
    have hd : dinsert d k v = d ++ [(k, v)] := by
      unfold dinsert; rw [if_neg (by simp [hany])]
    rw [hd, dlookup_append, dlookup_none_of_not_any d k hany]
    simp [dlookup]

theorem dlookup_dinsert_ne (d : JDict) (k k' : String) (v : JsonVal)
    (h : (k == k') = false) : dlookup (dinsert d k v) k' = dlookup d k' := by
  cases hany : d.any (fun p => p.1 == k) with
  | true =>
    have hd : dinsert d k v = d.map (fun p => if p.1 == k then (k, v) else p) := by
      unfold dinsert; rw [if_pos hany]
    rw [hd]
    exact dlookup_map_insert_ne d k k' v h
  | false =>
    have hd : dinsert d k v = d ++ [(k, v)] := by
      unfold dinsert; rw [if_neg (by simp [hany])]
    rw [hd, dlookup_append]
    cases hv : dlookup d k' with
    | some w => simp
    | none => simp [dlookup, h]

theorem dcontains_iff_dlookup (d : JDict) (k : String) :
    dcontains d k = true ↔ ∃ v, dlookup d k = some v := by
  unfold dcontains
  cases h : dlookup d k <;> simp [Option.isSome]

/-- Effect of one back-fill iteration on the key it targets. -/
theorem dlookup_backfillStep_self (r : JDict) (key : String) :
    dlookup (backfillStep r key) key = some ((dlookup r key).getD (defaultForKey key)) := by
  unfold backfillStep
  by_cases h : dcontains r key
  · rw [if_pos h]
    obtain ⟨v, hv⟩ := (dcontains_iff_dlookup r key).mp h
    simp [hv]
  · rw [if_neg h]
    have hnone : dlookup r key = none := by
      cases hv : dlookup r key with
      | none => rfl
      | some v => exact absurd ((dcontains_iff_dlookup r key).mpr ⟨v, hv⟩) h
    rw [dlookup_dinsert_self, hnone]
    rfl

/-- A back-fill iteration for one key leaves every other key's lookup alone. -/
theorem dlookup_backfillStep_ne (r : JDict) (key k : String) (h : (key == k) = false) :
    dlookup (backfillStep r key) k = dlookup r k := by
  unfold backfillStep
  by_cases hc : dcontains r key
  · rw [if_pos hc]
  · rw [if_neg hc, dlookup_dinsert_ne _ _ _ _ h]

/-- After the back-fill loop, each required key resolves to the parsed value
when present, and to the documented default when absent. -/
theorem dlookup_backfillRequired (d : JDict) (k : String) (hk : k ∈ requiredKeys) :
    dlookup (backfillRequired d) k = some ((dlookup d k).getD (defaultForKey k)) := by
  simp only [requiredKeys, List.mem_cons, List.not_mem_nil, or_false] at hk
  rcases hk with h | h | h | h | h | h <;> subst h <;>
    simp only [backfillRequired, requiredKeys, List.foldl]
  · rw [dlookup_backfillStep_ne _ _ _ (by decide), dlookup_backfillStep_ne _ _ _ (by decide),
      dlookup_backfillStep_ne _ _ _ (by decide), dlookup_backfillStep_ne _ _ _ (by decide),
      dlookup_backfillStep_ne _ _ _ (by decide), dlookup_backfillStep_self]
  · rw [dlookup_backfillStep_ne _ _ _ (by decide), dlookup_backfillStep_ne _ _ _ (by decide),
      dlookup_backfillStep_ne _ _ _ (by decide), dlookup_backfillStep_ne _ _ _ (by decide),
      dlookup_backfillStep_self, dlookup_backfillStep_ne _ _ _ (by decide)]
  · rw [dlookup_backfillStep_ne _ _ _ (by decide), dlookup_backfillStep_ne _ _ _ (by decide),
      dlookup_backfillStep_ne _ _ _ (by decide), dlookup_backfillStep_self,
      dlookup_backfillStep_ne _ _ _ (by decide), dlookup_backfillStep_ne _ _ _ (by decide)]
  · rw [dlookup_backfillStep_ne _ _ _ (by decide), dlookup_backfillStep_ne _ _ _ (by decide),
      dlookup_backfillStep_self, dlookup_backfillStep_ne _ _ _ (by decide),
      dlookup_backfillStep_ne _ _ _ (by decide), dlookup_backfillStep_ne _ _ _ (by decide)]
  · rw [dlookup_backfillStep_ne _ _ _ (by decide), dlookup_backfillStep_self,
      dlookup_backfillStep_ne _ _ _ (by decide), dlookup_backfillStep_ne _ _ _ (by decide),
      dlookup_backfillStep_ne _ _ _ (by decide), dlookup_backfillStep_ne _ _ _ (by decide)]
  · rw [dlookup_backfillStep_self, dlookup_backfillStep_ne _ _ _ (by decide),
      dlookup_backfillStep_ne _ _ _ (by decide), dlookup_backfillStep_ne _ _ _ (by decide),
      dlookup_backfillStep_ne _ _ _ (by decide), dlookup_backfillStep_ne _ _ _ (by decide)]

/-! ## Claim C1: `analyze` never lets an exception escape -/

/-- C1.  `analyze_cv` is a total function of the service outcome (no
exception escapes): a reply that is not valid JSON yields the fixed degraded
tuple with score 50 and the specific placeholder strings in every field, and
any other failure — the missing-credential `ValueError` included — yields the
degraded tuple with score 50, empty strengths and experience-gaps lists, a
remediation-hint recommendation, and the error text embedded in the summary
field. -/
theorem analyze_cv_failure_degrades (err : String) :
    analyze_cv .invalidJson =
      { score := .num 50
        missing_skills := .arr ["Analysis parsing failed"]
        summary := .str "Could not parse AI analysis response"
        strengths := .arr ["Please try again"]
        experience_gaps := .arr ["Technical issue occurred"]
        recommendations := .arr ["Contact support if problem persists"] } ∧
    analyze_cv (.apiError err) =
      { score := .num 50
        missing_skills := .arr ["Unable to analyze - API error"]
        summary := .str ("Analysis failed: " ++ err)
        strengths := .arr []
        experience_gaps := .arr []
        recommendations := .arr ["Please check your OpenAI API key and try again"] } :=
  ⟨rfl, rfl⟩

/-! ## Claim C2: `analyze` back-fills absent required fields -/

/-- C2.  On every parsed JSON reply, each of the six required fields of the
returned tuple equals the parsed value when the key is present and the
documented default when it is absent: absent list fields become `[]`, an
absent `score` becomes `50`, an absent `summary` becomes the fixed
"Analysis incomplete" message — so every component of the 6-tuple is
populated. -/
theorem analyze_cv_parsed_backfills (obj : JDict) :
    (analyze_cv (.parsed obj)).score = (dlookup obj "score").getD (.num 50) ∧
    (analyze_cv (.parsed obj)).missing_skills = (dlookup obj "missing_skills").getD (.arr []) ∧
    (analyze_cv (.parsed obj)).strengths = (dlookup obj "strengths").getD (.arr []) ∧
    (analyze_cv (.parsed obj)).experience_gaps = (dlookup obj "experience_gaps").getD (.arr []) ∧
    (analyze_cv (.parsed obj)).recommendations = (dlookup obj "recommendations").getD (.arr []) ∧
    (analyze_cv (.parsed obj)).summary = (dlookup obj "summary").getD (.str "Analysis incomplete") := by
  refine ⟨?_, ?_, ?_, ?_, ?_, ?_⟩ <;>
    simp only [analyze_cv] <;>
    rw [dlookup_backfillRequired _ _ (by simp [requiredKeys])] <;>
    simp [defaultForKey]

/-! ## Claim C3: key coverage of `suggest` -/

/-- C3 counterexample.  A successfully parsed upstream reply that omits the
required keys is returned as-is: for the parsed-but-empty JSON object, the
mapping returned by `generate_cv_improvement_suggestions` does not contain
`enhanced_summary` (nor any of the other five required keys), so the claim
that the result always contains all six keys is false. -/
theorem suggest_parsed_omits_keys_cex :
    dcontains (generate_cv_improvement_suggestions (.parsed [])) "enhanced_summary" = false ∧
    dcontains (generate_cv_improvement_suggestions (.parsed [])) "skill_additions" = false := by
  constructor <;> rfl

/-- C3 amended.  On any failure, `generate_cv_improvement_suggestions`
returns the fixed default mapping covering all six required keys plus an
`error` key carrying the failure text; a successfully parsed reply, however,
is returned unchanged, so keys the upstream reply omitted stay absent. -/
theorem suggest_failure_covers_keys (err : String) (obj : JDict) :
    (∀ k, k ∈ suggestRequiredKeys →
      dcontains (generate_cv_improvement_suggestions (.failure err)) k = true) ∧
    dlookup (generate_cv_improvement_suggestions (.failure err)) "error" =
      some (.str ("Enhancement failed: " ++ err)) ∧
    generate_cv_improvement_suggestions (.parsed obj) = obj := by
  refine ⟨?_, rfl, rfl⟩
  intro k hk
  simp only [suggestRequiredKeys, List.mem_cons, List.not_mem_nil, or_false] at hk
  rcases hk with h | h | h | h | h | h <;> subst h <;> rfl

/-- Witness for the amended C3 theorem at a concrete failure text and key. -/
theorem suggest_failure_covers_keys_witness :
    dcontains (generate_cv_improvement_suggestions (.failure "boom")) "enhanced_summary" = true ∧
    dlookup (generate_cv_improvement_suggestions (.failure "boom")) "error" =
      some (.str ("Enhancement failed: " ++ "boom")) :=
  ⟨(suggest_failure_covers_keys "boom" []).1 "enhanced_summary" (by simp [suggestRequiredKeys]),
   (suggest_failure_covers_keys "boom" []).2.1⟩

/-! ## Extractor (`utils.py`)

Python exceptions observable at the `extract_text` boundary, tagged by the
kind the endpoint dispatches on (`except ValueError` vs `except Exception`). -/

inductive PyError where
  | valueError (msg : String)
  | otherError (msg : String)
deriving DecidableEq, Repr

/-- Python `str.strip()` (no argument): remove leading and trailing
whitespace.  Defined by structural recursion on the character list so that
it evaluates inside the kernel. -/
def pystrip (s : String) : String :=
  ⟨((s.data.dropWhile Char.isWhitespace).reverse.dropWhile Char.isWhitespace).reverse⟩

/-- Python `str.lower()` (character-wise lower-casing). -/
def pylower (s : String) : String :=
  ⟨s.data.map Char.toLower⟩

/-- `str(e)` of a modelled exception. -/
def PyError.msg : PyError → String
  | .valueError m => m
  | .otherError m => m

/-! ### Structured-document (.docx) extraction -/

/-- A paragraph of a python-docx document: its `.text`, and the `.text` of
its runs. -/
structure DocxPara where
  text : String
  runTexts : List String
deriving DecidableEq, Repr

/-- A table cell (its paragraphs). -/
structure DocxCell where
  paragraphs : List DocxPara
deriving DecidableEq, Repr

/-- A table row (its cells). -/
structure DocxRow where
  cells : List DocxCell
deriving DecidableEq, Repr

/-- A table (its rows). -/
structure DocxTable where
  rows : List DocxRow
deriving DecidableEq, Repr

/-- A python-docx document: top-level paragraphs and tables. -/
structure DocxDoc where
  paragraphs : List DocxPara
  tables : List DocxTable
deriving DecidableEq, Repr

/-- The cell loop of `extract_text_from_docx`: the stripped texts of the
cell's non-blank paragraphs, joined with `" "`; `none` when the cell is
blank (`if cell_text:` fails). -/
def cellText (c : DocxCell) : Option String :=
  let ts := (c.paragraphs.filter (fun p => pystrip p.text ≠ "")).map (fun p => pystrip p.text)
  if ts.isEmpty then none else some (String.intercalate " " ts)

/-- The row loop of `extract_text_from_docx`: non-blank cells joined with
`" | "`; `none` when every cell is blank or the combined row strips to
nothing (the row is skipped). -/
def rowText (r : DocxRow) : Option String :=
  let rt := r.cells.filterMap cellText
  if rt.isEmpty then none
  else
    let combined := String.intercalate " | " (rt.filter (fun t => t ≠ ""))
    if pystrip combined = "" then none else some combined

/-- Step 2 of the fallback: paragraph texts (of non-blank paragraphs) and
table-row texts collected into `text_parts`. -/
def structuralParts (doc : DocxDoc) : List String :=
  ((doc.paragraphs.filter (fun p => pystrip p.text ≠ "")).map (fun p => p.text))
    ++ (doc.tables.map (fun tb => tb.rows.filterMap rowText)).flatten

/-- The run texts of one paragraph kept by step 3 (non-blank runs,
stripped). -/
def paraRunTexts (p : DocxPara) : List String :=
  (p.runTexts.filter (fun t => pystrip t ≠ "")).map (fun t => pystrip t)

/-- Step 3 of the fallback: run-element texts of all paragraphs, then of all
table-cell paragraphs. -/
def runParts (doc : DocxDoc) : List String :=
  (doc.paragraphs.map paraRunTexts).flatten
    ++ (doc.tables.map (fun tb =>
        (tb.rows.map (fun r =>
          (r.cells.map (fun c => (c.paragraphs.map paraRunTexts).flatten)).flatten)).flatten)).flatten

/-- The `text_parts` list after steps 2–3: run collection happens only when
the structural collection found nothing (`if not text_parts:`). -/
def docxParts (doc : DocxDoc) : List String :=
  if (structuralParts doc).isEmpty then runParts doc else structuralParts doc

/-- The sentinel warning returned when no text at all was found. -/
def docxWarnSentinel : String :=
  "⚠️ No extractable text found. This document may contain only images, complex formatting, or be password protected."

/-- The sentinel error string produced by the `except` branch of the
python-docx fallback. -/
def docxErrSentinel (e : String) : String :=
  "⚠️ Error extracting text from DOCX: " ++ e

/-- Steps 2–4 of `extract_text_from_docx` on a successfully parsed document:
join `text_parts` with newlines, and if the result strips to nothing return
the sentinel warning string. -/
def docxStructuralExtract (doc : DocxDoc) : String :=
  if pystrip (String.intercalate "\n" (docxParts doc)) = "" then docxWarnSentinel
  else String.intercalate "\n" (docxParts doc)

/-- The fallible sub-steps of `extract_text_from_docx`:
`mammothResult` is `mammoth.extract_raw_text` (its raw text, or `str(e)` of
the exception it raised); `docxDoc` is `docx.Document(file_path)` (the parsed
document, or `str(e)` of the exception — a corrupted or non-document byte
stream lands here). -/
structure DocxEnv where
  mammothResult : Except String String
  docxDoc : Except String DocxDoc
deriving Repr

/-- `utils.extract_text_from_docx`, total in the environment: mammoth first
(accepted when the stripped text is non-empty and longer than 10
characters), then the python-docx structural fallback, whose own failure is
converted into the sentinel error string instead of being raised. -/
def extract_text_from_docx (env : DocxEnv) : String :=
  match env.mammothResult with
  | .ok raw =>
    if pystrip raw ≠ "" ∧ 10 < (pystrip raw).length then pystrip raw
    else
      match env.docxDoc with
      | .ok doc => docxStructuralExtract doc
      | .error e => docxErrSentinel e
  | .error _ =>
    match env.docxDoc with
    | .ok doc => docxStructuralExtract doc
    | .error e => docxErrSentinel e

/-! ### Extension dispatch (`utils.extract_text`) -/

/-- The environment of one `extract_text` call: the OCR probe
(`pytesseract.get_tesseract_version()`) outcome at call time, and the
outcomes of the fallible per-format sub-extractors. -/
structure ExtractEnv where
  /-- Whether the OCR probe succeeds at call time. -/
  ocrAvailable : Bool
  /-- `str(e)` of the failed OCR probe (meaningful when unavailable). -/
  ocrError : String
  /-- `Image.open` + `pytesseract.image_to_string` outcome (`str(e)` on
  failure), used only when OCR is available. -/
  ocrText : Except String String
  /-- `extract_text_from_pdf` outcome: pdfplumber's concatenated page text,
  or the exception it raised. -/
  pdfResult : Except PyError String
  /-- The structured-document sub-steps. -/
  docxEnv : DocxEnv
  /-- `extract_text_from_txt` outcome: the file's text, or the exception the
  read raised. -/
  txtResult : Except PyError String
deriving Repr

/-- `utils.extract_text_from_image`: re-probes OCR at call time and raises
`ValueError` with a remediation hint when unavailable; wraps any OCR failure
in `ValueError` too. -/
def extract_text_from_image (env : ExtractEnv) : Except PyError String :=
  if env.ocrAvailable then
    match env.ocrText with
    | .ok t => .ok t
    | .error m => .error (.valueError ("Failed to extract text from image: " ++ m))
  else
    .error (.valueError ("Image text extraction is not available: " ++ env.ocrError ++
      ". Please install Tesseract OCR: 'brew install tesseract' (macOS) or visit https://github.com/tesseract-ocr/tesseract for installation instructions."))

/-- The `ValueError` message of the image branch of `extract_text`
(`raise ValueError(f"Image file upload is not supported: {str(e)}. …")`). -/
def imageUnsupportedMessage (e : String) : String :=
  "Image file upload is not supported: " ++ e ++
    ". Please use PDF, DOCX, or TXT files instead. To enable image support, install Tesseract: 'brew install tesseract' (macOS)"

/-- The `ValueError` message of the unsupported-extension branch: names the
(lower-cased) extension and enumerates the supported formats, mentioning
images only when OCR is available at call time. -/
def unsupportedMessage (e : String) (ocrAvailable : Bool) : String :=
  "Unsupported file type: " ++ e ++ ". Supported formats: PDF, DOCX, TXT" ++
    (if ocrAvailable then " and images (JPG, PNG)" else "")

/-- `utils.extract_text`: dispatch on the lower-cased extension of the file
path (`os.path.splitext(file_path)[1].lower()`; the `ext` argument is the
`splitext` extension component).  In the image branch the whole
`extract_text_from_image` call sits inside the probe's `try`, so an image
extraction failure is re-wrapped into the branch's own `ValueError`. -/
def extract_text (ext : String) (env : ExtractEnv) : Except PyError (String × String) :=
  if pylower ext = ".pdf" then env.pdfResult.map (fun t => (t, "pdf"))
  else if pylower ext = ".docx" then .ok (extract_text_from_docx env.docxEnv, "docx")
  else if pylower ext ∈ [".jpg", ".jpeg", ".png"] then
    if env.ocrAvailable then
      match extract_text_from_image env with
      | .ok t => .ok (t, "image")
      | .error err => .error (.valueError (imageUnsupportedMessage err.msg))
    else .error (.valueError (imageUnsupportedMessage env.ocrError))
  else if pylower ext = ".txt" then env.txtResult.map (fun t => (t, "txt"))
  else .error (.valueError (unsupportedMessage (pylower ext) env.ocrAvailable))

/-! ## Claim C4: structured-document extraction never raises -/

/-- C4.  `extract_text_from_docx` is total in its environment (exceptions of
the sub-steps included), i.e. extraction for this format never throws:
the lightweight raw-text result is accepted when longer than 10 characters
after trimming; otherwise the structural collection runs, a failure of the
structural parse becoming the sentinel error string instead of an exception;
a successfully parsed document yields either genuine text or the sentinel
warning string; table rows join their non-blank cells with `" | "` and
all-blank rows are skipped. -/
theorem docx_extraction_never_raises (raw e1 e2 : String) (doc : DocxDoc) :
    (extract_text_from_docx ⟨.ok raw, .ok doc⟩ =
        if pystrip raw ≠ "" ∧ 10 < (pystrip raw).length then pystrip raw
        else docxStructuralExtract doc) ∧
    (extract_text_from_docx ⟨.error e1, .ok doc⟩ = docxStructuralExtract doc) ∧
    (extract_text_from_docx ⟨.ok raw, .error e2⟩ =
        if pystrip raw ≠ "" ∧ 10 < (pystrip raw).length then pystrip raw
        else "⚠️ Error extracting text from DOCX: " ++ e2) ∧
    (extract_text_from_docx ⟨.error e1, .error e2⟩ =
        "⚠️ Error extracting text from DOCX: " ++ e2) ∧
    (docxStructuralExtract doc = docxWarnSentinel ∨
        pystrip (docxStructuralExtract doc) ≠ "") ∧
    rowText ⟨[⟨[⟨"   ", []⟩]⟩, ⟨[]⟩]⟩ = none ∧
    rowText ⟨[⟨[⟨"alpha", []⟩]⟩, ⟨[⟨"beta", []⟩]⟩]⟩ = some "alpha | beta" := by
  refine ⟨rfl, rfl, rfl, rfl, ?_, by decide, by decide⟩
  unfold docxStructuralExtract
  by_cases h : pystrip (String.intercalate "\n" (docxParts doc)) = ""
  · rw [if_pos h]
    exact Or.inl rfl
  · rw [if_neg h]
    exact Or.inr h

/-! ## Claim C5: extension dispatch of `extract_text` -/

/-- The four type tags `extract_text` can pair with extracted text. -/
def extractTags : List String := ["pdf", "docx", "txt", "image"]

/-- The extensions `extract_text` dispatches on (after lower-casing). -/
def supportedExts : List String := [".pdf", ".docx", ".txt", ".jpg", ".jpeg", ".png"]

/-- C5.  Whenever `extract_text` succeeds its tag is exactly one of
{pdf, docx, txt, image}; dispatch is on the lower-cased extension, each
supported extension routing to its sub-extractor (images only when the OCR
probe succeeds at call time, else a `ValueError`); an unsupported extension
fails with the `ValueError` message naming that (lower-cased) extension and
enumerating the supported formats, the image formats appearing in the
enumeration only when OCR is available at call time. -/
theorem extract_text_dispatch (ext : String) (env : ExtractEnv) :
    (∀ t tag, extract_text ext env = .ok (t, tag) → tag ∈ extractTags) ∧
    (pylower ext = ".pdf" →
      extract_text ext env = env.pdfResult.map (fun t => (t, "pdf"))) ∧
    (pylower ext = ".docx" →
      extract_text ext env = .ok (extract_text_from_docx env.docxEnv, "docx")) ∧
    (pylower ext = ".txt" →
      extract_text ext env = env.txtResult.map (fun t => (t, "txt"))) ∧
    (pylower ext ∈ [".jpg", ".jpeg", ".png"] → env.ocrAvailable = false →
      extract_text ext env =
        .error (.valueError (imageUnsupportedMessage env.ocrError))) ∧
    (∀ t, pylower ext ∈ [".jpg", ".jpeg", ".png"] → env.ocrAvailable = true →
      env.ocrText = .ok t → extract_text ext env = .ok (t, "image")) ∧
    (pylower ext ∉ supportedExts →
      extract_text ext env =
        .error (.valueError (unsupportedMessage (pylower ext) env.ocrAvailable)))
    := by
  refine ⟨?_, ?_, ?_, ?_, ?_, ?_, ?_⟩
  · intro t tag h
    unfold extract_text at h
    split at h
    · cases hp : env.pdfResult <;> rw [hp] at h <;> simp_all [Except.map, extractTags]
    · split at h
      · simp_all [extractTags]
      · split at h
        · split at h
          · split at h <;> simp_all [extractTags]
          · simp at h
        · split at h
          · cases ht : env.txtResult <;> rw [ht] at h <;> simp_all [Except.map, extractTags]
          · simp at h
  · intro h1
    unfold extract_text
    rw [if_pos h1]
  · intro h2
    unfold extract_text
    rw [if_neg (by rw [h2]; decide), if_pos h2]
  · intro h4
    unfold extract_text
    rw [if_neg (by rw [h4]; decide), if_neg (by rw [h4]; decide),
      if_neg (by rw [h4]; decide), if_pos h4]
  · intro h5 h6
    simp only [List.mem_cons, List.not_mem_nil, or_false] at h5
    unfold extract_text
    rcases h5 with h5 | h5 | h5 <;>
      rw [if_neg (by rw [h5]; decide), if_neg (by rw [h5]; decide),
        if_pos (by rw [h5]; decide), if_neg (by simp [h6])]
  · intro t h5 h6 h7
    simp only [List.mem_cons, List.not_mem_nil, or_false] at h5
    unfold extract_text
    rcases h5 with h5 | h5 | h5 <;>
      rw [if_neg (by rw [h5]; decide), if_neg (by rw [h5]; decide),
        if_pos (by rw [h5]; decide), if_pos (by simp [h6])] <;>
      simp [extract_text_from_image, h6, h7]
  · intro h
    simp only [supportedExts, List.mem_cons, List.not_mem_nil, or_false, not_or] at h
    obtain ⟨hp, hd, ht, hj, hje, hpn⟩ := h
    unfold extract_text
    rw [if_neg hp, if_neg hd, if_neg (by simp [hj, hje, hpn]), if_neg ht]

/-! ## Session store (`database.CVSession`, `crud.CVSessionCRUD`)

A session row; nullable columns are `Option`s, JSON list columns hold string
lists, timestamps are abstract instants (`Nat`). -/

structure CVSession where
  id : String
  cv_text : String
  cv_file_type : String
  cv_file_path : Option String
  job_title : Option String
  job_description : Option String
  original_score : Option Int
  new_score : Option Int
  missing_skills : Option (List String)
  strengths : Option (List String)
  experience_gaps : Option (List String)
  recommendations : Option (List String)
  summary : Option String
  additional_info : Option String
  improvement_suggestions : Option JDict
  enhanced_cv_path : Option String
  created_at : Nat
  updated_at : Nat
deriving DecidableEq, Repr

/-- The sessions table. -/
abbrev Store := List CVSession

/-- `db.query(CVSession).filter(CVSession.id == session_id).first()`. -/
def find_session (db : Store) (sid : String) : Option CVSession :=
  db.find? (fun s => s.id == sid)

/-- `CVSessionCRUD.create_session`: a new row with only text/type/path
populated; `created_at` and `updated_at` take their defaults (`now`). -/
def create_session (db : Store) (now : Nat) (sid cv_text cv_file_type : String)
    (cv_file_path : Option String) : Store × CVSession :=
  let s : CVSession :=
    { id := sid, cv_text := cv_text, cv_file_type := cv_file_type,
      cv_file_path := cv_file_path,
      job_title := none, job_description := none,
      original_score := none, new_score := none,
      missing_skills := none, strengths := none, experience_gaps := none,
      recommendations := none, summary := none,
      additional_info := none, improvement_suggestions := none,
      enhanced_cv_path := none,
      created_at := now, updated_at := now }
  (db ++ [s], s)

/-- The attribute assignments of `CVSessionCRUD.update_analysis`. -/
def applyAnalysisFields (s : CVSession) (jt jd : String) (score : Int)
    (ms st eg rc : List String) (sm : String) : CVSession :=
  { s with
    job_title := some jt
    job_description := some jd
    original_score := some score
    missing_skills := some ms
    strengths := some st
    experience_gaps := some eg
    recommendations := some rc
    summary := some sm }

/-- The committed row of `update_analysis`.  SQLAlchemy's flush emits an
UPDATE statement only when some column's value actually changed, and the
`updated_at` onupdate default (`database.py`) fires only with that UPDATE —
hence the no-op guard. -/
def updatedAnalysisRow (s : CVSession) (now : Nat) (jt jd : String) (score : Int)
    (ms st eg rc : List String) (sm : String) : CVSession :=
  if applyAnalysisFields s jt jd score ms st eg rc sm = s then s
  else { applyAnalysisFields s jt jd score ms st eg rc sm with updated_at := now }

/-- `CVSessionCRUD.update_analysis`: look the row up by id (`none` if
unknown), assign the analysis columns and commit. -/
def update_analysis (db : Store) (now : Nat) (sid jt jd : String) (score : Int)
    (ms st eg rc : List String) (sm : String) : Store × Option CVSession :=
  match find_session db sid with
  | none => (db, none)
  | some s =>
    (db.map (fun t =>
        if t.id == sid then updatedAnalysisRow s now jt jd score ms st eg rc sm else t),
     some (updatedAnalysisRow s now jt jd score ms st eg rc sm))

/-- The attribute assignments of `CVSessionCRUD.update_enhancement`. -/
def applyEnhancementFields (s : CVSession) (ai : String) (nsc : Int) (sugg : JDict)
    (path : String) : CVSession :=
  { s with
    additional_info := some ai
    new_score := some nsc
    improvement_suggestions := some sugg
    enhanced_cv_path := some path }

/-- The committed row of `update_enhancement` (same flush semantics). -/
def updatedEnhancementRow (s : CVSession) (now : Nat) (ai : String) (nsc : Int)
    (sugg : JDict) (path : String) : CVSession :=
  if applyEnhancementFields s ai nsc sugg path = s then s
  else { applyEnhancementFields s ai nsc sugg path with updated_at := now }

/-- `CVSessionCRUD.update_enhancement`: same shape for the enhancement
columns. -/
def update_enhancement (db : Store) (now : Nat) (sid : String) (ai : String)
    (nsc : Int) (sugg : JDict) (path : String) : Store × Option CVSession :=
  match find_session db sid with
  | none => (db, none)
  | some s =>
    (db.map (fun t =>
        if t.id == sid then updatedEnhancementRow s now ai nsc sugg path else t),
     some (updatedEnhancementRow s now ai nsc sugg path))

/-- Whether the first character list starts the second. -/
def startsWithChars : List Char → List Char → Bool
  | [], _ => true
  | _ :: _, [] => false
  | c :: cs, d :: ds => c == d && startsWithChars cs ds

/-- Whether the first character list occurs inside the second. -/
def containsChars (pat : List Char) : List Char → Bool
  | [] => pat.isEmpty
  | d :: rest => startsWithChars pat (d :: rest) || containsChars pat rest

/-- Case-insensitive substring match:
`CVSession.job_title.ilike(f"%{job_title}%")`; a NULL column never
matches. -/
def ilikeContains (col : Option String) (pat : String) : Bool :=
  match col with
  | none => false
  | some t => containsChars (pylower pat).data (pylower t).data

/-- The filter pipeline of `CVSessionCRUD.get_filtered_sessions`.  The
job-title and file-type filters are guarded by Python truthiness
(`if job_title:`), so an empty string disables them; the score filters are
guarded by `is not None`.  SQL three-valued logic drops rows whose
`original_score` is NULL from either score comparison. -/
def matchesFilters (s : CVSession) (job_title : Option String)
    (min_score max_score : Option Int) (file_type : Option String) : Bool :=
  (match job_title with
   | none => true
   | some jt => if jt = "" then true else ilikeContains s.job_title jt) &&
  (match min_score with
   | none => true
   | some m =>
     match s.original_score with
     | none => false
     | some v => m ≤ v) &&
  (match max_score with
   | none => true
   | some m =>
     match s.original_score with
     | none => false
     | some v => v ≤ m) &&
  (match file_type with
   | none => true
   | some ft => if ft = "" then true else s.cv_file_type == ft)

/-- Insertion step of the `ORDER BY created_at DESC` sort. -/
def insertByCreatedDesc (s : CVSession) : List CVSession → List CVSession
  | [] => [s]
  | t :: ts => if s.created_at ≤ t.created_at then t :: insertByCreatedDesc s ts
               else s :: t :: ts

/-- `ORDER BY created_at DESC` (ties in stored order; the claims do not
depend on tie order). -/
def sortByCreatedDesc : List CVSession → List CVSession
  | [] => []
  | s :: ss => insertByCreatedDesc s (sortByCreatedDesc ss)

/-- `CVSessionCRUD.get_filtered_sessions`: filter, order by `created_at`
descending, then `OFFSET skip LIMIT limit` (defaults `skip=0`,
`limit=100`). -/
def get_filtered_sessions (db : Store) (limit skip : Nat)
    (job_title : Option String) (min_score max_score : Option Int)
    (file_type : Option String) : List CVSession :=
  (((sortByCreatedDesc
      (db.filter (fun s => matchesFilters s job_title min_score max_score file_type))).drop
    skip).take limit)

/-! ## Claim C6: idempotence of `update_analysis` -/

theorem updatedAnalysisRow_id (s : CVSession) (now : Nat) (jt jd : String)
    (score : Int) (ms st eg rc : List String) (sm : String) :
    (updatedAnalysisRow s now jt jd score ms st eg rc sm).id = s.id := by
  unfold updatedAnalysisRow
  split <;> rfl

/-- Re-committing identical analysis values is a no-op on the row: either the
first commit already changed nothing, or the second assignment reproduces the
first committed row field for field (including `updated_at`, because an
UPDATE without net column changes is not emitted). -/
theorem updatedAnalysisRow_idem (s : CVSession) (n1 n2 : Nat) (jt jd : String)
    (score : Int) (ms st eg rc : List String) (sm : String) :
    updatedAnalysisRow (updatedAnalysisRow s n1 jt jd score ms st eg rc sm)
        n2 jt jd score ms st eg rc sm
      = updatedAnalysisRow s n1 jt jd score ms st eg rc sm := by
  unfold updatedAnalysisRow
  by_cases h1 : applyAnalysisFields s jt jd score ms st eg rc sm = s
  · rw [if_pos h1, if_pos h1]
  · rw [if_neg h1]
    exact if_pos rfl

theorem find_session_map_update (db : Store) (sid : String) (s2 : CVSession)
    (h2 : s2.id = sid) (h : (find_session db sid).isSome = true) :
    find_session (db.map (fun t => if t.id == sid then s2 else t)) sid = some s2 := by
  induction db with
  | nil => simp [find_session] at h
  | cons t db ih =>
    by_cases ht : (t.id == sid) = true
    · simp only [find_session, List.map_cons]
      rw [if_pos ht]
      rw [@List.find?_cons_of_pos _ (fun u => u.id == sid) s2 _ (by simp [h2])]
    · simp only [find_session, List.map_cons]
      rw [if_neg ht, @List.find?_cons_of_neg _ (fun u => u.id == sid) t _ ht]
      refine ih ?_
      have h' : (List.find? (fun u => u.id == sid) (t :: db)).isSome = true := h
      rw [@List.find?_cons_of_neg _ (fun u => u.id == sid) t _ ht] at h'
      exact h'

theorem map_update_twice (db : Store) (sid : String) (s2 : CVSession)
    (h2 : s2.id = sid) :
    (db.map (fun t => if t.id == sid then s2 else t)).map
        (fun t => if t.id == sid then s2 else t)
      = db.map (fun t => if t.id == sid then s2 else t) := by
  induction db with
  | nil => rfl
  | cons t db ih =>
    simp only [List.map_cons, ih, List.cons.injEq, and_true]
    by_cases ht : (t.id == sid) = true
    · rw [if_pos ht, if_pos (by simp [h2])]
    · rw [if_neg ht, if_neg ht]

/-- C6.  Calling `update_analysis` twice in succession with the same
arguments leaves the store in the same final state as calling it once: the
second call finds the already-updated row, every column assignment
reproduces the value already stored, so no UPDATE is emitted, `updated_at`
keeps its first-call value, and no field differs. -/
theorem update_analysis_idempotent (db : Store) (n1 n2 : Nat) (sid jt jd : String)
    (score : Int) (ms st eg rc : List String) (sm : String) :
    (update_analysis (update_analysis db n1 sid jt jd score ms st eg rc sm).1
        n2 sid jt jd score ms st eg rc sm).1
      = (update_analysis db n1 sid jt jd score ms st eg rc sm).1 := by
  cases h : find_session db sid with
  | none =>
    have e1 : update_analysis db n1 sid jt jd score ms st eg rc sm = (db, none) := by
      unfold update_analysis
      rw [h]
    have e2 : update_analysis db n2 sid jt jd score ms st eg rc sm = (db, none) := by
      unfold update_analysis
      rw [h]
    rw [e1, e2]
  | some s =>
    have hid : s.id = sid := by
      have h' : List.find? (fun t => t.id == sid) db = some s := h
      have hfs := List.find?_some h'
      simpa using hfs
    have hrow : (updatedAnalysisRow s n1 jt jd score ms st eg rc sm).id = sid := by
      rw [updatedAnalysisRow_id]
      exact hid
    have e1 : update_analysis db n1 sid jt jd score ms st eg rc sm =
        (db.map (fun t =>
            if t.id == sid then updatedAnalysisRow s n1 jt jd score ms st eg rc sm else t),
         some (updatedAnalysisRow s n1 jt jd score ms st eg rc sm)) := by
      unfold update_analysis
      rw [h]
    have hfind : find_session
        (db.map (fun t =>
          if t.id == sid then updatedAnalysisRow s n1 jt jd score ms st eg rc sm else t)) sid
        = some (updatedAnalysisRow s n1 jt jd score ms st eg rc sm) :=
      find_session_map_update db sid _ hrow (by rw [h]; rfl)
    have e2 : update_analysis
        (db.map (fun t =>
          if t.id == sid then updatedAnalysisRow s n1 jt jd score ms st eg rc sm else t))
        n2 sid jt jd score ms st eg rc sm =
        ((db.map (fun t =>
            if t.id == sid then updatedAnalysisRow s n1 jt jd score ms st eg rc sm else t)).map
          (fun t =>
            if t.id == sid then
              updatedAnalysisRow (updatedAnalysisRow s n1 jt jd score ms st eg rc sm)
                n2 jt jd score ms st eg rc sm
            else t),
         some (updatedAnalysisRow (updatedAnalysisRow s n1 jt jd score ms st eg rc sm)
            n2 jt jd score ms st eg rc sm)) := by
      unfold update_analysis
      rw [hfind]
    rw [e1, e2]
    simp only [updatedAnalysisRow_idem]
    exact map_update_twice db sid _ hrow

/-! ## Claim C7: the inclusive score-range filter scenario -/

theorem mem_insertByCreatedDesc (a s : CVSession) (l : List CVSession) :
    a ∈ insertByCreatedDesc s l ↔ a = s ∨ a ∈ l := by
  induction l with
  | nil => simp [insertByCreatedDesc]
  | cons t ts ih =>
    unfold insertByCreatedDesc
    split
    · simp only [List.mem_cons, ih]
      tauto
    · simp only [List.mem_cons]

theorem mem_sortByCreatedDesc (a : CVSession) (l : List CVSession) :
    a ∈ sortByCreatedDesc l ↔ a ∈ l := by
  induction l with
  | nil => exact Iff.rfl
  | cons t ts ih =>
    simp only [sortByCreatedDesc, mem_insertByCreatedDesc, ih, List.mem_cons]

/-- C7.  On a store holding three sessions with original scores 40, 65 and
90, the filtered listing with `min_score=50`, `max_score=80` (and the default
pagination `limit=100`, `skip=0`) returns exactly the session scored 65: both
bounds are inclusive comparisons on `original_score`. -/
theorem filter_scenario (s1 s2 s3 : CVSession)
    (h1 : s1.original_score = some 40) (h2 : s2.original_score = some 65)
    (h3 : s3.original_score = some 90) :
    get_filtered_sessions [s1, s2, s3] 100 0 none (some 50) (some 80) none = [s2] := by
  simp [get_filtered_sessions, matchesFilters, h1, h2, h3, sortByCreatedDesc,
    insertByCreatedDesc]

/-- A minimal session row used to evaluate the store theorems concretely. -/
def mkTestSession (sid : String) (score : Option Int) : CVSession :=
  { id := sid, cv_text := "cv", cv_file_type := "txt", cv_file_path := none,
    job_title := none, job_description := none,
    original_score := score, new_score := none,
    missing_skills := none, strengths := none, experience_gaps := none,
    recommendations := none, summary := none,
    additional_info := none, improvement_suggestions := none,
    enhanced_cv_path := none, created_at := 0, updated_at := 0 }

/-- Witness for C7 at three concrete sessions. -/
theorem filter_scenario_witness :
    get_filtered_sessions
      [mkTestSession "a" (some 40), mkTestSession "b" (some 65),
        mkTestSession "c" (some 90)]
      100 0 none (some 50) (some 80) none = [mkTestSession "b" (some 65)] :=
  filter_scenario _ _ _ rfl rfl rfl

/-! ## Claim C10: score filters require a present score -/

/-- C10.  Whenever a `min_score` or `max_score` filter is supplied, every
session returned by the filtered listing has a present (non-NULL)
`original_score` satisfying every supplied bound; a session created but not
yet analyzed can never appear, even when only `max_score` is given, because
a NULL column satisfies neither SQL comparison. -/
theorem score_filter_requires_present_score (db : Store) (limit skip : Nat)
    (jt : Option String) (minS maxS : Option Int) (ft : Option String) (s : CVSession)
    (hf : minS.isSome = true ∨ maxS.isSome = true)
    (hmem : s ∈ get_filtered_sessions db limit skip jt minS maxS ft) :
    ∃ v, s.original_score = some v ∧
      (∀ m, minS = some m → m ≤ v) ∧ (∀ m, maxS = some m → v ≤ m) := by
  have hsorted : s ∈ sortByCreatedDesc
      (db.filter (fun u => matchesFilters u jt minS maxS ft)) :=
    List.drop_subset _ _ (List.take_subset _ _ hmem)
  have hfiltered : s ∈ db.filter (fun u => matchesFilters u jt minS maxS ft) :=
    (mem_sortByCreatedDesc _ _).mp hsorted
  obtain ⟨hdb, hmatch⟩ := List.mem_filter.mp hfiltered
  simp only [matchesFilters, Bool.and_eq_true] at hmatch
  obtain ⟨⟨⟨hjt, hmin⟩, hmax⟩, hft⟩ := hmatch
  cases hsc : s.original_score with
  | none =>
    exfalso
    rcases hf with hf | hf
    · obtain ⟨m, hm⟩ := Option.isSome_iff_exists.mp hf
      rw [hm, hsc] at hmin
      simp at hmin
    · obtain ⟨m, hm⟩ := Option.isSome_iff_exists.mp hf
      rw [hm, hsc] at hmax
      simp at hmax
  | some v =>
    refine ⟨v, rfl, ?_, ?_⟩
    · intro m hm
      rw [hm, hsc] at hmin
      simpa using hmin
    · intro m hm
      rw [hm, hsc] at hmax
      simpa using hmax

/-- Witness for C10 at a concrete one-session store with only `min_score`
supplied. -/
theorem score_filter_requires_present_score_witness :
    ∃ v, (mkTestSession "a" (some 60)).original_score = some v ∧
      (∀ m, (some (50 : Int)) = some m → m ≤ v) ∧
      (∀ m, (none : Option Int) = some m → v ≤ m) :=
  score_filter_requires_present_score [mkTestSession "a" (some 60)] 100 0 none
    (some 50) none none (mkTestSession "a" (some 60)) (Or.inl rfl) (by decide)

/-! ## Claim C8: score fields within [0,100] -/

/-- C8 counterexample.  The store validates no score range: creating a
session and updating it with `original_score = 150` stores 150, which lies
outside [0,100] — the claimed invariant over all sessions reachable through
the store's operations is false. -/
theorem score_range_unenforced_cex :
    ((find_session
        (update_analysis (create_session [] 0 "s1" "cv" "txt" none).1
          1 "s1" "Engineer" "desc" 150 [] [] [] [] "summary").1 "s1").map
      (fun s => s.original_score)) = some (some 150) ∧
    ¬ ((0 : Int) ≤ 150 ∧ (150 : Int) ≤ 100) := by
  constructor
  · decide
  · decide

/-- Score fields of one row are absent or within [0,100]. -/
def scoreInv (s : CVSession) : Prop :=
  (∀ v, s.original_score = some v → 0 ≤ v ∧ v ≤ 100) ∧
  (∀ v, s.new_score = some v → 0 ≤ v ∧ v ≤ 100)

/-- Stores reachable through the store's operations when every score
argument handed to an update lies within [0,100] (e.g. scores produced by
the analyzer's documented defaults or an in-range upstream reply). -/
inductive ReachableInRange : Store → Prop where
  | empty : ReachableInRange []
  | create (db : Store) (now : Nat) (sid cv_text cv_file_type : String)
      (path : Option String) :
      ReachableInRange db →
      ReachableInRange (create_session db now sid cv_text cv_file_type path).1
  | analysis (db : Store) (now : Nat) (sid jt jd : String) (score : Int)
      (ms st eg rc : List String) (sm : String)
      (hscore : 0 ≤ score ∧ score ≤ 100) :
      ReachableInRange db →
      ReachableInRange (update_analysis db now sid jt jd score ms st eg rc sm).1
  | enhance (db : Store) (now : Nat) (sid ai : String) (nsc : Int)
      (sugg : JDict) (path : String) (hscore : 0 ≤ nsc ∧ nsc ≤ 100) :
      ReachableInRange db →
      ReachableInRange (update_enhancement db now sid ai nsc sugg path).1

theorem updatedAnalysisRow_scores (u : CVSession) (now : Nat) (jt jd : String)
    (score : Int) (ms st eg rc : List String) (sm : String) :
    (updatedAnalysisRow u now jt jd score ms st eg rc sm).original_score = some score ∧
    (updatedAnalysisRow u now jt jd score ms st eg rc sm).new_score = u.new_score := by
  unfold updatedAnalysisRow
  by_cases h1 : applyAnalysisFields u jt jd score ms st eg rc sm = u
  · rw [if_pos h1]
    constructor
    · conv_lhs => rw [← h1]
      rfl
    · rfl
  · rw [if_neg h1]
    exact ⟨rfl, rfl⟩

theorem updatedEnhancementRow_scores (u : CVSession) (now : Nat) (ai : String)
    (nsc : Int) (sugg : JDict) (path : String) :
    (updatedEnhancementRow u now ai nsc sugg path).new_score = some nsc ∧
    (updatedEnhancementRow u now ai nsc sugg path).original_score = u.original_score := by
  unfold updatedEnhancementRow
  by_cases h1 : applyEnhancementFields u ai nsc sugg path = u
  · rw [if_pos h1]
    constructor
    · conv_lhs => rw [← h1]
      rfl
    · rfl
  · rw [if_neg h1]
    exact ⟨rfl, rfl⟩

/-- C8 amended.  The store itself enforces no range; the invariant holds for
every session reachable through create / update-analysis / update-enhancement
provided each score argument handed to the store lies within [0,100]: score
fields of every such session are either absent or within [0,100]. -/
theorem score_range_invariant_amended (db : Store) (h : ReachableInRange db) :
    ∀ s, s ∈ db → scoreInv s := by
  induction h with
  | empty =>
    intro s hs
    simp at hs
  | create db now sid cv cft path _ ih =>
    intro s hs
    simp only [create_session, List.mem_append, List.mem_singleton] at hs
    rcases hs with hs | hs
    · exact ih s hs
    · subst hs
      constructor <;> intro v hv <;> simp at hv
  | analysis db now sid jt jd score ms st eg rc sm hscore _ ih =>
    intro s hs
    unfold update_analysis at hs
    cases hfind : find_session db sid with
    | none =>
      rw [hfind] at hs
      exact ih s hs
    | some u =>
      rw [hfind] at hs
      have hu_db : u ∈ db := by
        have h' : List.find? (fun t => t.id == sid) db = some u := hfind
        exact List.mem_of_find?_eq_some h'
      obtain ⟨t, ht_db, ht_eq⟩ := List.mem_map.mp hs
      by_cases hc : (t.id == sid) = true
      · rw [if_pos hc] at ht_eq
        subst ht_eq
        obtain ⟨ho, hn⟩ := updatedAnalysisRow_scores u now jt jd score ms st eg rc sm
        constructor
        · intro v hv
          rw [ho] at hv
          cases hv
          exact hscore
        · intro v hv
          rw [hn] at hv
          exact (ih u hu_db).2 v hv
      · rw [if_neg hc] at ht_eq
        subst ht_eq
        exact ih t ht_db
  | enhance db now sid ai nsc sugg path hscore _ ih =>
    intro s hs
    unfold update_enhancement at hs
    cases hfind : find_session db sid with
    | none =>
      rw [hfind] at hs
      exact ih s hs
    | some u =>
      rw [hfind] at hs
      have hu_db : u ∈ db := by
        have h' : List.find? (fun t => t.id == sid) db = some u := hfind
        exact List.mem_of_find?_eq_some h'
      obtain ⟨t, ht_db, ht_eq⟩ := List.mem_map.mp hs
      by_cases hc : (t.id == sid) = true
      · rw [if_pos hc] at ht_eq
        subst ht_eq
        obtain ⟨hn, ho⟩ := updatedEnhancementRow_scores u now ai nsc sugg path
        constructor
        · intro v hv
          rw [ho] at hv
          exact (ih u hu_db).1 v hv
        · intro v hv
          rw [hn] at hv
          cases hv
          exact hscore
      · rw [if_neg hc] at ht_eq
        subst ht_eq
        exact ih t ht_db

/-- A concrete reachable store for the C8 witness. -/
def witnessStore : Store :=
  (update_analysis (create_session [] 0 "w1" "cv" "txt" none).1
    1 "w1" "Engineer" "desc" 60 [] [] [] [] "ok").1

/-- Witness for the amended C8 theorem: the analyzed session of a concrete
in-range history satisfies the score invariant. -/
theorem score_range_invariant_amended_witness :
    scoreInv ((find_session witnessStore "w1").getD (mkTestSession "w1" none)) := by
  have hreach : ReachableInRange witnessStore :=
    ReachableInRange.analysis _ 1 "w1" "Engineer" "desc" 60 [] [] [] [] "ok"
      (by decide)
      (ReachableInRange.create [] 0 "w1" "cv" "txt" none ReachableInRange.empty)
  exact score_range_invariant_amended witnessStore hreach _ (by decide)

/-! ## Endpoint (`main.analyze_cv_complete`) -/

/-- The response of the primary endpoint: the success envelope (restricted
to the components the claims mention), or an `HTTPException` with its status
code and detail text. -/
inductive HttpResponse where
  | ok (session_id : String) (score : JsonVal) (summary : JsonVal)
  | error (status : Nat) (detail : String)
deriving DecidableEq, Repr

/-- The outcome of `utils.save_temp_file` (utils.py:22-30).  The function is
not atomic: `tempfile.NamedTemporaryFile(delete=False, suffix=…)` creates
the file on disk *before* `uploaded_file.file.read()` and `tmp.write(…)`
run, so it can fail in two observably different ways:

* `failedNoFile`: the exception was raised before the file existed
  (`os.path.splitext` on a bad filename, `NamedTemporaryFile` itself
  failing);
* `failedFileCreated`: `NamedTemporaryFile` created the file and then
  `read()`/`write()` raised (`read()` on a closed upload raises
  `ValueError`; I/O failures raise `OSError`) — the name is lost because
  `tmp.name` was never returned.

The error carries the endpoint-relevant kind (`ValueError` vs anything
else). -/
inductive SaveOutcome where
  | ok (path : String)
  | failedNoFile (err : PyError)
  | failedFileCreated (err : PyError)
deriving DecidableEq, Repr

/-- The environment of one request to `/api/analyze-cv`:

* `saveResult`: the `utils.save_temp_file` outcome.
* `ext`: the `splitext` extension of the temp path (it inherits the uploaded
  file's suffix).
* `extractEnv`: the sub-extractor outcomes for `utils.extract_text`.
* `dbError`: `str(e)` of an exception raised by the store calls
  (`create_session` / `update_analysis`), if any.
* `analysisOutcome`: the external-service outcome for
  `openai_utils.analyze_cv` (which never raises). -/
structure RequestEnv where
  saveResult : SaveOutcome
  ext : String
  extractEnv : ExtractEnv
  dbError : Option String
  analysisOutcome : ServiceOutcome
deriving Repr

/-- `main.analyze_cv_complete`.  The second component reports whether a
temporary file created during the request still exists when the response is
returned.  Both `except` branches run `if 'temp_path' in locals() and
os.path.exists(temp_path): os.remove(temp_path)`, so:

* when `save_temp_file` returned, `temp_path` is in scope and the file is
  removed on either failure branch (`false`), and deliberately kept on
  success (`true`);
* when `save_temp_file` itself raised after `NamedTemporaryFile` had created
  the file, `temp_path` was never assigned, the guard skips the cleanup, and
  the created file survives the error branch (`true`). -/
def analyze_cv_complete (env : RequestEnv) : HttpResponse × Bool :=
  match env.saveResult with
  | .failedNoFile (.valueError m) => (.error 400 m, false)
  | .failedNoFile (.otherError m) => (.error 500 ("Analysis failed: " ++ m), false)
  | .failedFileCreated (.valueError m) => (.error 400 m, true)
  | .failedFileCreated (.otherError m) => (.error 500 ("Analysis failed: " ++ m), true)
  | .ok tempPath =>
    match extract_text env.ext env.extractEnv with
    | .error (.valueError m) => (.error 400 m, false)
    | .error (.otherError m) => (.error 500 ("Analysis failed: " ++ m), false)
    | .ok (_text, _ftype) =>
      match env.dbError with
      | some m => (.error 500 ("Analysis failed: " ++ m), false)
      | none =>
        (.ok tempPath (analyze_cv env.analysisOutcome).score
          (analyze_cv env.analysisOutcome).summary, true)

/-! ## Claim C9: endpoint error handling and temp-file cleanup -/

/-- A concrete extraction environment for the C9 theorems: OCR unavailable,
every sub-extractor succeeding, structural docx parse failing. -/
def witnessExtractEnv : ExtractEnv :=
  { ocrAvailable := false, ocrError := "tesseract is not installed",
    ocrText := .error "unused",
    pdfResult := .ok "pdf text",
    docxEnv := { mammothResult := .ok "mammoth text is long enough",
                 docxDoc := .error "bad zip" },
    txtResult := .ok "txt text" }

/-- C9 counterexample.  When `save_temp_file` raises after
`NamedTemporaryFile(delete=False)` has already created the file (e.g.
`uploaded_file.file.read()` fails with an `OSError`), the endpoint returns
its 500 response with the created temporary file still on disk: `temp_path`
was never assigned, so the `'temp_path' in locals()` cleanup guard skips the
removal.  This refutes the claim that on both failure branches any temporary
file created during the request is removed before the error is returned. -/
theorem endpoint_temp_file_leak_cex :
    analyze_cv_complete
      { saveResult := .failedFileCreated (.otherError "No space left on device"),
        ext := ".txt", extractEnv := witnessExtractEnv, dbError := none,
        analysisOutcome := .invalidJson }
      = (.error 500 "Analysis failed: No space left on device", true) := rfl

/-- C9 amended.  A caller-input `ValueError` yields a 400 response carrying
the error's text and any other failure a 500 response embedding the
exception text.  On both failure branches the temporary file is removed
whenever `save_temp_file` completed (so `temp_path` is in scope): after a
`ValueError` or other extraction failure, and after a store failure.  When
`save_temp_file` itself raised before the file existed there is nothing to
remove; but when it raised after creating the file, the `'temp_path' in
locals()` guard misses the file and it survives the error branch. -/
theorem endpoint_error_handling (env : RequestEnv) (p m : String) :
    (env.saveResult = .ok p →
      extract_text env.ext env.extractEnv = .error (.valueError m) →
      analyze_cv_complete env = (.error 400 m, false)) ∧
    (env.saveResult = .ok p →
      extract_text env.ext env.extractEnv = .error (.otherError m) →
      analyze_cv_complete env = (.error 500 ("Analysis failed: " ++ m), false)) ∧
    (∀ t tag, env.saveResult = .ok p →
      extract_text env.ext env.extractEnv = .ok (t, tag) →
      env.dbError = some m →
      analyze_cv_complete env = (.error 500 ("Analysis failed: " ++ m), false)) ∧
    (env.saveResult = .failedNoFile (.valueError m) →
      analyze_cv_complete env = (.error 400 m, false)) ∧
    (env.saveResult = .failedNoFile (.otherError m) →
      analyze_cv_complete env = (.error 500 ("Analysis failed: " ++ m), false)) ∧
    (env.saveResult = .failedFileCreated (.valueError m) →
      analyze_cv_complete env = (.error 400 m, true)) ∧
    (env.saveResult = .failedFileCreated (.otherError m) →
      analyze_cv_complete env = (.error 500 ("Analysis failed: " ++ m), true)) := by
  refine ⟨?_, ?_, ?_, ?_, ?_, ?_, ?_⟩
  · intro h1 h2
    simp only [analyze_cv_complete, h1, h2]
  · intro h1 h2
    simp only [analyze_cv_complete, h1, h2]
  · intro t tag h1 h2 h3
    simp only [analyze_cv_complete, h1, h2, h3]
  · intro h1
    simp only [analyze_cv_complete, h1]
  · intro h1
    simp only [analyze_cv_complete, h1]
  · intro h1
    simp only [analyze_cv_complete, h1]
  · intro h1
    simp only [analyze_cv_complete, h1]

/-- Witness for the amended C9 theorem: an unsupported extension after a
completed save yields 400 with the enumerating message and no temp file left
behind. -/
theorem endpoint_error_handling_witness :
    analyze_cv_complete
      { saveResult := .ok "/tmp/u123.xyz", ext := ".xyz",
        extractEnv := witnessExtractEnv, dbError := none,
        analysisOutcome := .invalidJson }
      = (.error 400 (unsupportedMessage ".xyz" false), false) :=
  (endpoint_error_handling
    { saveResult := .ok "/tmp/u123.xyz", ext := ".xyz",
      extractEnv := witnessExtractEnv, dbError := none,
      analysisOutcome := .invalidJson }
    "/tmp/u123.xyz" (unsupportedMessage ".xyz" false)).1 rfl rfl

/-- Witness for C5 at concrete inputs: a concrete unsupported extension
(OCR unavailable, so the enumeration omits image formats) and a concrete
upper-cased `.PDF` dispatch. -/
theorem extract_text_dispatch_witness :
    extract_text ".XYZ" witnessExtractEnv =
      .error (.valueError (unsupportedMessage ".xyz" false)) ∧
    extract_text ".PDF" witnessExtractEnv = .ok ("pdf text", "pdf") :=
  ⟨(extract_text_dispatch ".XYZ" witnessExtractEnv).2.2.2.2.2.2 (by decide),
   by rw [(extract_text_dispatch ".PDF" witnessExtractEnv).2.1 (by decide)]; rfl⟩

end FastCVAI
